import Mathlib

/-!
Verification development for the Compost Coordinator repository.

The business-logic calculator (`src/calculator.js`) is a pipeline of pure
functions over JavaScript numbers; it is embedded here over `ℚ`, which models
the exact arithmetic the code denotes (all constants in the source are exact
decimals or small fractions).  The diagram geometry (`src/diagram.js`) uses
trigonometric functions and is embedded over `ℝ` in a later section.
-/

namespace Calculator

/-- Constant `CARDBOARD_PER_HOUSEHOLD_PER_WEEK` from `src/calculator.js`. -/
def cardboardPerHouseholdPerWeek : ℚ := 6

/-- Constant `FOOD_WASTE_PER_HOUSEHOLD_PER_WEEK` from `src/calculator.js`. -/
def foodWastePerHouseholdPerWeek : ℚ := 2

/-- Constant `WEEKS_PER_MONTH` from `src/calculator.js`. -/
def weeksPerMonth : ℚ := 4

/-- Constant `INPUT_TO_OUTPUT_RATIO = 200 / 480` from `src/calculator.js`. -/
def inputToOutputRatio : ℚ := 200 / 480

/-- Constant `TEA_CONCENTRATE_BASE` from `src/calculator.js`. -/
def teaConcentrateBase : ℚ := 20

/-- Constant `TEA_DILUTION_RATIO` from `src/calculator.js`. -/
def teaDilutionRatio : ℚ := 10

/-- Return value of `calculateInputVolumes`. -/
structure InputVolumes where
  cardboardPerWeek : ℚ
  foodWastePerWeek : ℚ
  cardboardPerMonth : ℚ
  foodWastePerMonth : ℚ
  totalPerWeek : ℚ
  totalPerMonth : ℚ
  deriving DecidableEq

/-- Embedding of `calculateInputVolumes` (src/calculator.js). -/
def calculateInputVolumes (households : ℚ) : InputVolumes :=
  let cardboardPerWeek := households * cardboardPerHouseholdPerWeek
  let foodWastePerWeek := households * foodWastePerHouseholdPerWeek
  { cardboardPerWeek := cardboardPerWeek
    foodWastePerWeek := foodWastePerWeek
    cardboardPerMonth := cardboardPerWeek * weeksPerMonth
    foodWastePerMonth := foodWastePerWeek * weeksPerMonth
    totalPerWeek := cardboardPerWeek + foodWastePerWeek
    totalPerMonth := (cardboardPerWeek + foodWastePerWeek) * weeksPerMonth }

/-- Return value of `calculateOutputVolumes`. -/
structure OutputVolumes where
  finishedCompostPerMonth : ℚ
  wormTeaConcentrate : ℚ
  wormTeaDiluted : ℚ
  deriving DecidableEq

/-- Embedding of `calculateOutputVolumes` (src/calculator.js).  Only the two
monthly input fields are read by the source. -/
def calculateOutputVolumes (inputs : InputVolumes) : OutputVolumes :=
  let totalInput := inputs.cardboardPerMonth + inputs.foodWastePerMonth
  let finishedCompostPerMonth := totalInput * inputToOutputRatio
  let teaScale := finishedCompostPerMonth / 200
  let teaConcentrate := teaConcentrateBase * teaScale
  { finishedCompostPerMonth := finishedCompostPerMonth
    wormTeaConcentrate := teaConcentrate
    wormTeaDiluted := teaConcentrate * teaDilutionRatio }

/-- Embedding of `calculateSellableOutput` (src/calculator.js). -/
def calculateSellableOutput (totalCompost households givebackPerYear : ℚ) : ℚ :=
  let givebackPerMonth := (households * givebackPerYear) / 12
  let sellable := totalCompost - givebackPerMonth
  max 0 sellable

/-- Parameter object of `calculateRevenue`. -/
structure RevenueParams where
  households : ℚ
  subscriptionPrice : ℚ
  compostPrice : ℚ
  teaPrice : ℚ
  sellableCompost : ℚ
  teaConcentrate : ℚ
  deriving DecidableEq

/-- Return value of `calculateRevenue`. -/
structure Revenue where
  subscriptions : ℚ
  compost : ℚ
  tea : ℚ
  total : ℚ
  deriving DecidableEq

/-- Embedding of `calculateRevenue` (src/calculator.js). -/
def calculateRevenue (p : RevenueParams) : Revenue :=
  let subscriptions := p.households * p.subscriptionPrice
  let compost := p.sellableCompost * p.compostPrice
  let tea := p.teaConcentrate * p.teaPrice
  { subscriptions := subscriptions
    compost := compost
    tea := tea
    total := subscriptions + compost + tea }

/-- Return value of `calculateLabor`. -/
structure Labor where
  collection : ℚ
  cardboard : ℚ
  composting : ℚ
  tea : ℚ
  delivery : ℚ
  total : ℚ
  deriving DecidableEq

/-- Embedding of `calculateLabor` (src/calculator.js). -/
def calculateLabor (households : ℚ) : Labor :=
  let scale := households / 15
  let collection := 16 * scale
  let cardboard := 10 * scale
  let composting := 6.7 * (0.5 + 0.5 * scale)
  let tea := 1.7 * (0.5 + 0.5 * scale)
  let delivery := 6 * scale
  { collection := collection
    cardboard := cardboard
    composting := composting
    tea := tea
    delivery := delivery
    total := collection + cardboard + composting + tea + delivery }

/-- One task object of `getTaskBreakdown`; `minPerWeek`/`minPerMonth` mirror the
two optional literal fields of the source records. -/
structure Task where
  name : String
  minPerWeek : Option ℚ
  minPerMonth : Option ℚ
  hoursPerMonth : ℚ
  deriving DecidableEq

/-- Embedding of `getTaskBreakdown` (src/calculator.js).  The JS object lookup
`breakdowns[category] || []` becomes a match on the category string. -/
def getTaskBreakdown (category : String) (households : ℚ) : List Task :=
  let scale := households / 15
  match category with
  | "collection" =>
    [ ⟨"Drive route", some 45, none, (45 / 60) * 4 * scale⟩,
      ⟨"Collect food waste buckets", some 75, none, (75 / 60) * 4 * scale⟩,
      ⟨"Collect cardboard", some 45, none, (45 / 60) * 4 * scale⟩,
      ⟨"Return clean buckets", some 45, none, (45 / 60) * 4 * scale⟩,
      ⟨"Bucket cleaning", some 30, none, (30 / 60) * 4 * scale⟩ ]
  | "cardboard" =>
    [ ⟨"Break down + remove plastic", some 90, none, (90 / 60) * 4 * scale⟩,
      ⟨"Shred (90 gal)", some 45, none, (45 / 60) * 4 * scale⟩,
      ⟨"Bag/containerize", some 15, none, (15 / 60) * 4 * scale⟩ ]
  | "composting" =>
    [ ⟨"Add materials to Stage 1", some 30, none, (30 / 60) * 4⟩,
      ⟨"Monitor Stages 2-4", some 10, none, (10 / 60) * 4⟩,
      ⟨"Move pile 1 to 2", none, some 60, 1⟩,
      ⟨"Move pile 2 to 3", none, some 60, 1⟩,
      ⟨"Move pile 3 to 4", none, some 60, 1⟩,
      ⟨"Harvest Stage 4", none, some 60, 1⟩ ]
  | "tea" =>
    [ ⟨"Collect castings for brew", none, some 15, 0.25⟩,
      ⟨"Set up brew", none, some 20, 0.33⟩,
      ⟨"Load brew vat", none, some 15, 0.25⟩,
      ⟨"Apply at customer sites", none, some 50, 0.83⟩ ]
  | "delivery" =>
    [ ⟨"Load truck", none, some 60, 1 * scale⟩,
      ⟨"Customer stops (10 x 30min)", none, some 300, 5 * scale⟩ ]
  | _ => []

/-- Sum of the `hoursPerMonth` fields over a task breakdown. -/
def taskHoursSum (category : String) (households : ℚ) : ℚ :=
  ((getTaskBreakdown category households).map Task.hoursPerMonth).sum

/-- Embedding of `calculateHourlyRate` (src/calculator.js). -/
def calculateHourlyRate (revenue hours : ℚ) : ℚ :=
  if hours = 0 then 0 else revenue / hours

/-- Parameter object of `calculateFullModel` (the numeric fields; the
`includeLawnService` flag of the extended variant only affects capital
figures outside the claims). -/
structure ModelParams where
  households : ℚ
  compostPrice : ℚ
  teaPrice : ℚ
  subscriptionPrice : ℚ
  givebackPerYear : ℚ
  deriving DecidableEq

/-- The `outputs` field of the full model: `calculateOutputVolumes` result
spread together with `sellableCompost`. -/
structure OutputsWithSellable where
  finishedCompostPerMonth : ℚ
  wormTeaConcentrate : ℚ
  wormTeaDiluted : ℚ
  sellableCompost : ℚ
  deriving DecidableEq

/-- The `annual` projection block of `calculateFullModel`. -/
structure Annual where
  activeMonths : ℚ
  winterMonths : ℚ
  revenue : ℚ
  hours : ℚ
  hourlyRate : ℚ
  deriving DecidableEq

/-- Return value of `calculateFullModel` (fields covered by the claims). -/
structure FullModel where
  inputs : InputVolumes
  outputs : OutputsWithSellable
  revenue : Revenue
  labor : Labor
  hourlyRate : ℚ
  annual : Annual
  deriving DecidableEq

/-- Embedding of `calculateFullModel` (src/calculator.js). -/
def calculateFullModel (p : ModelParams) : FullModel :=
  let inputs := calculateInputVolumes p.households
  let outputs := calculateOutputVolumes inputs
  let sellableCompost :=
    calculateSellableOutput outputs.finishedCompostPerMonth p.households p.givebackPerYear
  let revenue := calculateRevenue
    { households := p.households
      subscriptionPrice := p.subscriptionPrice
      compostPrice := p.compostPrice
      teaPrice := p.teaPrice
      sellableCompost := sellableCompost
      teaConcentrate := outputs.wormTeaConcentrate }
  let labor := calculateLabor p.households
  let hourlyRate := calculateHourlyRate revenue.total labor.total
  { inputs := inputs
    outputs :=
      { finishedCompostPerMonth := outputs.finishedCompostPerMonth
        wormTeaConcentrate := outputs.wormTeaConcentrate
        wormTeaDiluted := outputs.wormTeaDiluted
        sellableCompost := sellableCompost }
    revenue := revenue
    labor := labor
    hourlyRate := hourlyRate
    annual :=
      { activeMonths := 9
        winterMonths := 3
        revenue := revenue.total * 9 + revenue.subscriptions * 3
        hours := labor.total * 9 + 16 * 3
        hourlyRate := 0 } }

/-- The reference input set of the spec's concrete scenario. -/
def refParams : ModelParams :=
  { households := 15, compostPrice := 20, teaPrice := 15,
    subscriptionPrice := 25, givebackPerYear := 10 }

/-- The full model computed at the reference input set. -/
def refModel : FullModel := calculateFullModel refParams

end Calculator

namespace Diagram

/-- A 2-D point, as produced and consumed by the geometry helpers of
`src/diagram.js`. -/
structure Point where
  x : ℝ
  y : ℝ

/-- JS `Math.atan2(y, x)`, embedded as the complex argument of `x + y·i`
(`Complex.arg 0 = 0`, matching `Math.atan2(0, 0) = 0`). -/
noncomputable def atan2 (y x : ℝ) : ℝ := Complex.arg ⟨x, y⟩

/-- Embedding of `getEdgeConnectionPoint` (src/diagram.js): the point where
the ray from `nodePos` toward `targetPos` exits the node rectangle. -/
noncomputable def getEdgeConnectionPoint (nodePos targetPos : Point)
    (nodeWidth nodeHeight : ℝ) : Point :=
  let dx := targetPos.x - nodePos.x
  let dy := targetPos.y - nodePos.y
  let angle := atan2 dy dx
  let halfWidth := nodeWidth / 2
  let halfHeight := nodeHeight / 2
  if |Real.cos angle| * halfHeight > |Real.sin angle| * halfWidth then
    { x := nodePos.x + Real.sign dx * halfWidth
      y := nodePos.y + Real.tan angle * Real.sign dx * halfWidth }
  else
    { x := nodePos.x + (1 / Real.tan angle) * Real.sign dy * halfHeight
      y := nodePos.y + Real.sign dy * halfHeight }

/-- Constant `config.layout.padding` (src/config.js). -/
def layoutPadding : ℝ := 40

/-- Constant `config.layout.nodeWidth` (src/config.js). -/
def layoutNodeWidth : ℝ := 120

/-- Constant `config.layout.nodeHeight` (src/config.js). -/
def layoutNodeHeight : ℝ := 60

/-- Constant `config.layout.edgeCurve` (src/config.js). -/
def layoutEdgeCurve : ℝ := 0.3

/-- Embedding of `getAbsolutePosition` (src/diagram.js). -/
def getAbsolutePosition (relPos : Point) (containerWidth containerHeight : ℝ) : Point :=
  let padding := layoutPadding
  let usableWidth := containerWidth - padding * 2
  let usableHeight := containerHeight - padding * 2
  { x := padding + relPos.x * usableWidth
    y := padding + relPos.y * usableHeight }

/-- The cubic Bézier emitted by `generateBezierPath` (src/diagram.js), as its
four defining points instead of an SVG path string. -/
structure BezierPath where
  startPt : Point
  control1 : Point
  control2 : Point
  endPt : Point

/-- Embedding of `generateBezierPath` (src/diagram.js). -/
def generateBezierPath (pStart pEnd : Point) (curvature : ℝ) : BezierPath :=
  let dx := pEnd.x - pStart.x
  { startPt := pStart
    control1 := { x := pStart.x + dx * curvature, y := pStart.y }
    control2 := { x := pEnd.x - dx * curvature, y := pEnd.y }
    endPt := pEnd }

/-- A node of the diagram catalog (`config.nodes`): the fields `renderEdges`
reads. -/
structure DiagNode where
  id : String
  position : Point

/-- An edge of the diagram catalog (`config.edges`): the fields `renderEdges`
reads.  `fromId`/`toId` embed the JS `from`/`to` fields; an absent label is
the empty string, as in the source data. -/
structure DiagEdge where
  id : String
  fromId : String
  toId : String
  label : String
  color : String

/-- One entry of the edge layout: the per-edge geometry `renderEdges` draws
(path element) together with the optional label anchor point. -/
structure EdgeLayout where
  edgeId : String
  pathStart : Point
  pathEnd : Point
  path : BezierPath
  color : String
  labelPoint : Option Point

/-- Embedding of the layout computation of `renderEdges` (src/diagram.js):
for each edge, look up both endpoint nodes in the catalog
(`config.nodes[edge.from]`, `config.nodes[edge.to]`); if either is missing
the edge produces nothing (`if (!fromNode || !toNode) return`), otherwise
its connection points, Bézier path and label midpoint are computed.  The DOM
element creation is the discarded effect; this function returns exactly the
geometry those elements receive, in edge-catalog order. -/
noncomputable def computeEdgeLayout (nodes : String → Option DiagNode)
    (edges : List DiagEdge) (width height : ℝ) : List EdgeLayout :=
  edges.filterMap fun edge =>
    match nodes edge.fromId, nodes edge.toId with
    | some fromNode, some toNode =>
      let fromPos := getAbsolutePosition fromNode.position width height
      let toPos := getAbsolutePosition toNode.position width height
      let startPt := getEdgeConnectionPoint fromPos toPos layoutNodeWidth layoutNodeHeight
      let endPt := getEdgeConnectionPoint toPos fromPos layoutNodeWidth layoutNodeHeight
      some
        { edgeId := edge.id
          pathStart := startPt
          pathEnd := endPt
          path := generateBezierPath startPt endPt layoutEdgeCurve
          color := edge.color
          labelPoint :=
            if edge.label ≠ "" then
              some { x := (startPt.x + endPt.x) / 2, y := (startPt.y + endPt.y) / 2 - 10 }
            else none }
    | _, _ => none

end Diagram

section Claims

open Calculator Diagram

/-- C1 (counterexample): at the reference input set
`households=15, compostPrice=20, teaPrice=15, subscriptionPrice=25,
givebackPerYear=10`, `calculateFullModel` yields `revenue.compost = 3750`
(since `sellableCompost = 187.5` and `187.5 × 20 = 3750`), not the claimed
`3700`; consequently `revenue.total` is `4425`, not `4375`. -/
theorem C1_reference_compost_revenue_counterexample :
    Calculator.refModel.revenue.compost ≠ 3700 ∧
    Calculator.refModel.revenue.compost = 3750 ∧
    Calculator.refModel.revenue.total ≠ 4375 ∧
    Calculator.refModel.revenue.total = 4425 := by
  refine ⟨?_, ?_, ?_, ?_⟩ <;>
    norm_num [refModel, calculateFullModel, calculateRevenue, calculateSellableOutput,
      calculateOutputVolumes, calculateInputVolumes, refParams,
      cardboardPerHouseholdPerWeek, foodWastePerHouseholdPerWeek, weeksPerMonth,
      inputToOutputRatio, teaConcentrateBase]

/-- C1 (amended): at the reference input set, `calculateFullModel` yields
`cardboardPerMonth = 360`, `foodWastePerMonth = 120`,
`finishedCompostPerMonth` within 5 of 200, `sellableCompost` within 1 of
187.5, `revenue.subscriptions = 375`, `revenue.compost = 3750`,
`revenue.tea = 300`, `revenue.total = 4425`, `labor.total` within 0.5 of
40.4, and `hourlyRate` within 5 of 108. -/
theorem C1_reference_scenario :
    Calculator.refModel.inputs.cardboardPerMonth = 360 ∧
    Calculator.refModel.inputs.foodWastePerMonth = 120 ∧
    |Calculator.refModel.outputs.finishedCompostPerMonth - 200| ≤ 5 ∧
    |Calculator.refModel.outputs.sellableCompost - 187.5| ≤ 1 ∧
    Calculator.refModel.revenue.subscriptions = 375 ∧
    Calculator.refModel.revenue.compost = 3750 ∧
    Calculator.refModel.revenue.tea = 300 ∧
    Calculator.refModel.revenue.total = 4425 ∧
    |Calculator.refModel.labor.total - 40.4| ≤ 0.5 ∧
    |Calculator.refModel.hourlyRate - 108| ≤ 5 := by
  norm_num [refModel, calculateFullModel, calculateRevenue, calculateSellableOutput,
    calculateOutputVolumes, calculateInputVolumes, calculateLabor, calculateHourlyRate,
    refParams, cardboardPerHouseholdPerWeek, foodWastePerHouseholdPerWeek, weeksPerMonth,
    inputToOutputRatio, teaConcentrateBase, abs_le]

/-- C2 (counterexample): at `households = 15` the composting task breakdown
sums to `2 + 2/3 + 1 + 1 + 1 + 1 = 20/3 ≈ 6.667` hours, while
`calculateLabor(15).composting = 6.7`; likewise the tea breakdown sums to
`1.66` while the bucket is `1.7`.  The exact-reproduction claim fails. -/
theorem C2_composting_sum_counterexample :
    Calculator.taskHoursSum "composting" 15 ≠ (Calculator.calculateLabor 15).composting ∧
    Calculator.taskHoursSum "tea" 15 ≠ (Calculator.calculateLabor 15).tea := by
  constructor <;> norm_num [taskHoursSum, getTaskBreakdown, calculateLabor]

/-- C2 (amended): for every household count, the task sums of the
collection, cardboard and delivery breakdowns equal their
`calculateLabor` buckets exactly; the composting and tea breakdowns are
household-independent and sum to the constants `20/3` and `1.66`, which
only approximate (and in general differ from) the half-sensitivity buckets
`6.7·(0.5+0.5·scale)` and `1.7·(0.5+0.5·scale)`. -/
theorem C2_task_breakdown_sums (h : ℚ) :
    Calculator.taskHoursSum "collection" h = (Calculator.calculateLabor h).collection ∧
    Calculator.taskHoursSum "cardboard" h = (Calculator.calculateLabor h).cardboard ∧
    Calculator.taskHoursSum "delivery" h = (Calculator.calculateLabor h).delivery ∧
    Calculator.taskHoursSum "composting" h = 20 / 3 ∧
    Calculator.taskHoursSum "tea" h = 1.66 := by
  refine ⟨?_, ?_, ?_, ?_, ?_⟩ <;>
    · norm_num [taskHoursSum, getTaskBreakdown, calculateLabor]
      try ring

/-- C3: for all inputs (in particular all non-negative ones),
`calculateSellableOutput totalCompost households givebackPerYear` equals
`max 0 (totalCompost − households × givebackPerYear / 12)` and is never
negative, including when the give-back volume exceeds the total produced. -/
theorem C3_sellable_output_floor (totalCompost households givebackPerYear : ℚ) :
    Calculator.calculateSellableOutput totalCompost households givebackPerYear
      = max 0 (totalCompost - households * givebackPerYear / 12) ∧
    0 ≤ Calculator.calculateSellableOutput totalCompost households givebackPerYear := by
  constructor
  · rfl
  · exact le_max_left 0 _

/-- C4: `calculateHourlyRate revenue 0 = 0` for every revenue (including 0),
and for every nonzero hours value the result is `revenue / hours`; the guard
makes the division-by-zero branch unreachable. -/
theorem C4_hourly_rate_zero_guard (revenue hours : ℚ) :
    Calculator.calculateHourlyRate revenue 0 = 0 ∧
    (hours ≠ 0 → Calculator.calculateHourlyRate revenue hours = revenue / hours) := by
  constructor
  · simp [calculateHourlyRate]
  · intro hh
    simp [calculateHourlyRate, hh]

/-- C4 (witness): the guarded branch at `hours = 0` and the division branch
at the concrete input `revenue = 20, hours = 10`. -/
theorem C4_hourly_rate_zero_guard_witness :
    Calculator.calculateHourlyRate 20 0 = 0 ∧
    ((10 : ℚ) ≠ 0 ∧ Calculator.calculateHourlyRate 20 10 = 20 / 10) :=
  ⟨(C4_hourly_rate_zero_guard 20 10).1,
    by norm_num,
    (C4_hourly_rate_zero_guard 20 10).2 (by norm_num)⟩

/-- C5: `calculateRevenue` returns `total` equal to the exact sum
`subscriptions + compost + tea`, with `subscriptions = households ×
subscriptionPrice`, `compost = sellableCompost × compostPrice`, `tea =
teaConcentrate × teaPrice`; setting any one price to zero zeroes only that
component and leaves the other two unchanged. -/
theorem C5_revenue_components (p : Calculator.RevenueParams) :
    (Calculator.calculateRevenue p).total
      = (Calculator.calculateRevenue p).subscriptions
        + (Calculator.calculateRevenue p).compost
        + (Calculator.calculateRevenue p).tea ∧
    (Calculator.calculateRevenue p).subscriptions = p.households * p.subscriptionPrice ∧
    (Calculator.calculateRevenue p).compost = p.sellableCompost * p.compostPrice ∧
    (Calculator.calculateRevenue p).tea = p.teaConcentrate * p.teaPrice ∧
    (Calculator.calculateRevenue { p with subscriptionPrice := 0 }).subscriptions = 0 ∧
    (Calculator.calculateRevenue { p with subscriptionPrice := 0 }).compost
      = (Calculator.calculateRevenue p).compost ∧
    (Calculator.calculateRevenue { p with subscriptionPrice := 0 }).tea
      = (Calculator.calculateRevenue p).tea ∧
    (Calculator.calculateRevenue { p with compostPrice := 0 }).compost = 0 ∧
    (Calculator.calculateRevenue { p with compostPrice := 0 }).subscriptions
      = (Calculator.calculateRevenue p).subscriptions ∧
    (Calculator.calculateRevenue { p with compostPrice := 0 }).tea
      = (Calculator.calculateRevenue p).tea ∧
    (Calculator.calculateRevenue { p with teaPrice := 0 }).tea = 0 ∧
    (Calculator.calculateRevenue { p with teaPrice := 0 }).subscriptions
      = (Calculator.calculateRevenue p).subscriptions ∧
    (Calculator.calculateRevenue { p with teaPrice := 0 }).compost
      = (Calculator.calculateRevenue p).compost := by
  simp [calculateRevenue]

/-- C6: for every household count, `calculateInputVolumes` returns
`cardboardPerWeek = households × 6` and `foodWastePerWeek = households × 2`,
each monthly figure equals the weekly figure × 4, both weekly figures are 0
at zero households, and both double when the household count doubles. -/
theorem C6_input_volumes_linear (h : ℚ) :
    (Calculator.calculateInputVolumes h).cardboardPerWeek = h * 6 ∧
    (Calculator.calculateInputVolumes h).foodWastePerWeek = h * 2 ∧
    (Calculator.calculateInputVolumes h).cardboardPerMonth
      = (Calculator.calculateInputVolumes h).cardboardPerWeek * 4 ∧
    (Calculator.calculateInputVolumes h).foodWastePerMonth
      = (Calculator.calculateInputVolumes h).foodWastePerWeek * 4 ∧
    (Calculator.calculateInputVolumes 0).cardboardPerWeek = 0 ∧
    (Calculator.calculateInputVolumes 0).foodWastePerWeek = 0 ∧
    (Calculator.calculateInputVolumes (2 * h)).cardboardPerWeek
      = 2 * (Calculator.calculateInputVolumes h).cardboardPerWeek ∧
    (Calculator.calculateInputVolumes (2 * h)).foodWastePerWeek
      = 2 * (Calculator.calculateInputVolumes h).foodWastePerWeek := by
  refine ⟨?_, ?_, ?_, ?_, ?_, ?_, ?_, ?_⟩ <;>
    · norm_num [calculateInputVolumes, cardboardPerHouseholdPerWeek,
        foodWastePerHouseholdPerWeek, weeksPerMonth]
      try ring

/-- C7: for every non-negative household count, with `scale = households/15`,
`calculateLabor` returns `collection = 16·scale`, `cardboard = 10·scale`,
`delivery = 6·scale`, `composting = 6.7·(0.5 + 0.5·scale)`,
`tea = 1.7·(0.5 + 0.5·scale)` (both strictly positive, even at zero
households), and `total` equal to the sum of all five buckets. -/
theorem C7_labor_buckets (h : ℚ) (hh : 0 ≤ h) :
    (Calculator.calculateLabor h).collection = 16 * (h / 15) ∧
    (Calculator.calculateLabor h).cardboard = 10 * (h / 15) ∧
    (Calculator.calculateLabor h).delivery = 6 * (h / 15) ∧
    (Calculator.calculateLabor h).composting = 6.7 * (0.5 + 0.5 * (h / 15)) ∧
    (Calculator.calculateLabor h).tea = 1.7 * (0.5 + 0.5 * (h / 15)) ∧
    (Calculator.calculateLabor h).total
      = (Calculator.calculateLabor h).collection
        + (Calculator.calculateLabor h).cardboard
        + (Calculator.calculateLabor h).composting
        + (Calculator.calculateLabor h).tea
        + (Calculator.calculateLabor h).delivery ∧
    (0 < (Calculator.calculateLabor h).composting ∧
      0 < (Calculator.calculateLabor h).tea) := by
  refine ⟨rfl, rfl, rfl, rfl, rfl, rfl, ?_, ?_⟩ <;>
    · norm_num [calculateLabor]
      linarith

/-- C7 (witness): the labor buckets at zero households — the half-sensitivity
buckets remain strictly positive there. -/
theorem C7_labor_buckets_witness :
    (0 : ℚ) ≤ 0 ∧
    (0 < (Calculator.calculateLabor 0).composting ∧
      0 < (Calculator.calculateLabor 0).tea) :=
  ⟨le_rfl, (C7_labor_buckets 0 le_rfl).2.2.2.2.2.2⟩

/-- C8: when the two node centers coincide, `getEdgeConnectionPoint` returns
the source center point unchanged (for the positive node height the source
always uses): `atan2(0,0) = 0` makes the vertical-edge test true and both
offsets vanish through `sign 0 = 0` and `tan 0 = 0`. -/
theorem C8_degenerate_connection_point (p : Diagram.Point) (w h : ℝ) (hh : 0 < h) :
    Diagram.getEdgeConnectionPoint p p w h = p := by
  have harg : Diagram.atan2 (p.y - p.y) (p.x - p.x) = 0 := by
    have h0 : (⟨p.x - p.x, p.y - p.y⟩ : ℂ) = 0 := by
      apply Complex.ext <;> simp
    rw [Diagram.atan2, h0, Complex.arg_zero]
  simp only [Diagram.getEdgeConnectionPoint, harg]
  rw [if_pos]
  · cases p with
    | mk px py => simp [Real.sign_zero, Real.tan_zero]
  · simp only [Real.cos_zero, Real.sin_zero, abs_one, abs_zero, one_mul, zero_mul]
    positivity

/-- C8 (witness): coinciding centers at the configured node size
(`120 × 60`) yield the center point itself. -/
theorem C8_degenerate_connection_point_witness :
    (0 : ℝ) < 60 ∧
    Diagram.getEdgeConnectionPoint ⟨1, 2⟩ ⟨1, 2⟩ 120 60 = ⟨1, 2⟩ :=
  ⟨by norm_num, C8_degenerate_connection_point ⟨1, 2⟩ 120 60 (by norm_num)⟩

/-- C9: the edge layout contains exactly the edges whose source and target
node ids are both present in the node catalog, in catalog order — an edge
with a missing endpoint produces no output (it is silently excluded, the
function being total), and every edge with both endpoints present is
processed. -/
theorem C9_edge_layout_drops_missing_endpoints (nodes : String → Option Diagram.DiagNode)
    (edges : List Diagram.DiagEdge) (width height : ℝ) :
    (Diagram.computeEdgeLayout nodes edges width height).map Diagram.EdgeLayout.edgeId
      = (edges.filter fun e => (nodes e.fromId).isSome && (nodes e.toId).isSome).map
          Diagram.DiagEdge.id := by
  induction edges with
  | nil => rfl
  | cons e rest ih =>
    rw [Diagram.computeEdgeLayout, List.filterMap_cons, List.filter_cons]
    rcases hf : nodes e.fromId with _ | fn <;> rcases ht : nodes e.toId with _ | tn <;>
      simp only [hf, ht, Option.isSome_none, Option.isSome_some, Bool.false_and,
        Bool.and_false, Bool.true_and, Bool.and_true, if_false, if_true,
        List.map_cons, List.map, cond_false, cond_true] <;>
      simpa [Diagram.computeEdgeLayout] using ih

/-- C10: for every input parameter set, the annual projection of
`calculateFullModel` carries `hourlyRate = 0` as a constant (never computed
from the annual figures), `revenue = revenue.total × 9 +
revenue.subscriptions × 3`, and `hours = labor.total × 9 + 48`. -/
theorem C10_annual_projection (p : Calculator.ModelParams) :
    (Calculator.calculateFullModel p).annual.hourlyRate = 0 ∧
    (Calculator.calculateFullModel p).annual.revenue
      = (Calculator.calculateFullModel p).revenue.total * 9
        + (Calculator.calculateFullModel p).revenue.subscriptions * 3 ∧
    (Calculator.calculateFullModel p).annual.hours
      = (Calculator.calculateFullModel p).labor.total * 9 + 48 := by
  refine ⟨rfl, rfl, ?_⟩
  show (Calculator.calculateLabor p.households).total * 9 + 16 * 3
      = (Calculator.calculateLabor p.households).total * 9 + 48
  norm_num

end Claims
